import Mathlib

/-!
Shallow embedding of the pi-cam capture/streaming/recording core.

Source files embedded:
  * `src/USBCameraApp/app.py` — device detection/cache, `Camera` wrapper,
    `open_camera`, `generate_frames`, `set_bulk`.
  * `src/CameraController/controller/views.py` — `start_recording`,
    `stop_recording`, the local `StreamRecorder.run`, `AVRecorder`.
  * `src/CameraController/controller/stream_recorder.py` —
    `StreamRecorder._choose_fourcc`, `StreamRecorder.run`.

Hardware and OS effects (OpenCV opens, property writes, frame reads, JPEG
encoding, subprocess liveness, clock reads) are supplied by explicit
environment records; Python floats are modelled as rationals, byte strings
as lists of byte values, Python dicts as association lists with
replace-or-append update semantics, and raised exceptions as `Except`
errors.
-/

/-- Python dict assignment `m[k] = v`: replace the existing binding for `k`
in place, else append a fresh binding at the end (insertion order kept). -/
def dset {α : Type} (m : List (String × α)) (k : String) (v : α) :
    List (String × α) :=
  match m with
  | [] => [(k, v)]
  | (k1, v1) :: rest => if k1 = k then (k, v) :: rest else (k1, v1) :: dset rest k v

/-- Python `m.update(new)`: fold the entries of `new` into `m` in order. -/
def dictUpdate {α : Type} (m new : List (String × α)) : List (String × α) :=
  new.foldl (fun acc kv => dset acc kv.1 kv.2) m

/-- Python `m.get(k)` / `m[k]` lookup on the association-list dict model. -/
def dlookup {α : Type} (m : List (String × α)) (k : String) : Option α :=
  match m with
  | [] => none
  | (k1, v1) :: rest => if k1 = k then some v1 else dlookup rest k

instance exceptDecidableEq {ε α : Type} [DecidableEq ε] [DecidableEq α] :
    DecidableEq (Except ε α) := fun x y =>
  match x, y with
  | Except.ok a, Except.ok b =>
      if h : a = b then Decidable.isTrue (by rw [h])
      else Decidable.isFalse (fun hc => h (Except.ok.inj hc))
  | Except.error a, Except.error b =>
      if h : a = b then Decidable.isTrue (by rw [h])
      else Decidable.isFalse (fun hc => h (Except.error.inj hc))
  | Except.ok _, Except.error _ => Decidable.isFalse (fun hc => Except.noConfusion hc)
  | Except.error _, Except.ok _ => Decidable.isFalse (fun hc => Except.noConfusion hc)

/-- Characters removed by Python `str.strip()` (the ASCII ones). -/
def isPySpace (c : Char) : Bool :=
  c = ' ' || c = '\t' || c = '\n' || c = '\x0d' || c = '\x0b' || c = '\x0c'

/-- Python `s.strip()`. -/
def strTrim (s : String) : String :=
  String.mk (((s.data.dropWhile isPySpace).reverse.dropWhile isPySpace).reverse)

/-- Python `s.startswith(pre)`. -/
def strStartsWith (s pre : String) : Bool :=
  pre.data.isPrefixOf s.data

/-- Python `s[n:]`. -/
def strDrop (s : String) (n : Nat) : String :=
  String.mk (s.data.drop n)

/-- ASCII lower-casing of one character. -/
def lowerChar (c : Char) : Char :=
  if 'A' ≤ c ∧ c ≤ 'Z' then Char.ofNat (c.toNat + 32) else c

/-- Python `s.lower()` on the ASCII range. -/
def strToLower (s : String) : String :=
  String.mk (s.data.map lowerChar)

/-- Property names of `CAMERA_PROPS` (app.py, lines 60-67); the OpenCV
integer ids are irrelevant to control flow and are dropped. -/
def CAMERA_PROPS : List String :=
  ["brightness", "contrast", "saturation", "hue", "gain", "exposure"]

/-- One entry of `detect_cameras()` output (app.py, lines 104-111). -/
structure CamDevice where
  id : Nat
  path : String
  name : String
  width : Nat
  height : Nat
  fps : ℚ
deriving DecidableEq, Repr

/-- One entry of `detect_audio_devices()` output (app.py, lines 151-156). -/
structure AudioDevice where
  id : Nat
  path : String
  name : String
  dtype : String
deriving DecidableEq, Repr

/-- Oracle for all hardware/OS effects the embedded functions perform. -/
structure Env where
  /-- `cv2.VideoCapture(source).isOpened()` for a given source path. -/
  openOk : String → Bool
  /-- `capture.set(prop, val)` success, keyed by property name. -/
  setOk : String → ℚ → Bool
  /-- camera list a `refresh_devices()` call would produce. -/
  detectCameras : List CamDevice
  /-- audio list a `refresh_devices()` call would produce. -/
  detectAudio : List AudioDevice
  /-- `capture.read()`: `none` models `(False, None)`, `some f` a frame. -/
  readResult : Option (List Nat)
  /-- `cv2.imencode('.jpg', frame)`: `none` models `ok = False`. -/
  encodeResult : List Nat → Option (List Nat)

/-- The `Camera` wrapper object (app.py, lines 257-313).  `capture` is
`none` when `self.capture is None`, `some b` when a `VideoCapture` object
exists with `isOpened() = b`. -/
structure CamObj where
  source : String
  config : List (String × ℚ)
  capture : Option Bool
deriving DecidableEq, Repr

/-- `Camera.apply_settings` (app.py, lines 274-287): returns `False` when
the capture is absent or closed; otherwise writes every recognized
property and reports whether all writes succeeded (unrecognized keys are
skipped, failures do not stop the loop). -/
def Camera.apply_settings (env : Env) (c : CamObj) : Bool :=
  match c.capture with
  | some true =>
      c.config.foldl
        (fun ok kv =>
          if kv.1 ∈ CAMERA_PROPS then ok && env.setOk kv.1 kv.2 else ok)
        true
  | _ => false

/-- `Camera._init_camera` (app.py, lines 264-272): release any existing
capture, open a fresh one, raise (model: `Except.error`) when it does not
open, else install it and re-apply settings.  The mutated object is
returned in both cases, mirroring in-place mutation under exceptions. -/
def Camera.init_camera (env : Env) (c : CamObj) : Except Unit Unit × CamObj :=
  let c1 : CamObj := { c with capture := c.capture.map (fun _ => false) }
  if env.openOk c1.source then
    let c2 : CamObj := { c1 with capture := some true }
    let _ := Camera.apply_settings env c2
    (Except.ok (), c2)
  else
    (Except.error (), c1)

/-- `Camera.__init__` (app.py, lines 258-262): copy the config snapshot and
run `_init_camera`; a raise aborts construction (no object escapes). -/
def Camera.new (env : Env) (source : String) (cfg : List (String × ℚ)) :
    Except Unit CamObj :=
  let c0 : CamObj := { source := source, config := cfg, capture := none }
  match Camera.init_camera env c0 with
  | (Except.ok _, c1) => Except.ok c1
  | (Except.error _, _) => Except.error ()

/-- `Camera._reinit` (app.py, lines 294-300): run `_init_camera`, swallow
any exception, report success as a boolean. -/
def Camera.reinit (env : Env) (c : CamObj) : Bool × CamObj :=
  match Camera.init_camera env c with
  | (Except.ok _, c1) => (true, c1)
  | (Except.error _, c1) => (false, c1)

/-- `Camera.update` (app.py, lines 289-292): merge the partial settings
into the stored config, then `apply_settings() or self._reinit()`
(short-circuit: `_reinit` runs only when `apply_settings` returned
`False`). -/
def Camera.update (env : Env) (c : CamObj) (new : List (String × ℚ)) :
    Bool × CamObj :=
  let c1 : CamObj := { c with config := dictUpdate c.config new }
  if Camera.apply_settings env c1 then (true, c1) else Camera.reinit env c1

/-- `Camera.is_opened` (app.py, lines 307-308). -/
def Camera.is_opened (c : CamObj) : Bool :=
  match c.capture with
  | some b => b
  | none => false

/-- `Camera.close` (app.py, lines 310-313): release and null the capture. -/
def Camera.close (c : CamObj) : CamObj :=
  { c with capture := none }

/-- The module-level mutable state of app.py used by the embedded
operations: `detected_cameras`, `detected_audio_devices`, `current_idx`,
`camera`, `settings_state`. -/
structure AppState where
  detectedCameras : List CamDevice
  detectedAudio : List AudioDevice
  currentIdx : Int
  camera : Option CamObj
  settingsState : List (String × ℚ)
deriving DecidableEq, Repr

/-- `refresh_devices` (app.py, lines 231-243) restricted to its effect on
the in-process device lists (the cache write is modelled separately by
`cache_devices`). -/
def refresh_devices (env : Env) (s : AppState) : AppState :=
  { s with detectedCameras := env.detectCameras, detectedAudio := env.detectAudio }

/-- Number of open capture handles held by the process-wide `camera`
slot. -/
def sessionOpenCount (c : Option CamObj) : Nat :=
  match c with
  | some cam => if Camera.is_opened cam then 1 else 0
  | none => 0

/-- Default device used only under an in-range guard for total indexing. -/
def defaultCamDevice : CamDevice :=
  { id := 0, path := "", name := "", width := 0, height := 0, fps := 0 }

/-- The opening step of `open_camera` (app.py, lines 321-323): refresh the
device lists when no cameras are currently known. -/
def open_camera_pre (env : Env) (s : AppState) : AppState :=
  if s.detectedCameras.isEmpty then refresh_devices env s else s

/-- `open_camera` (app.py, lines 318-337): refresh when the camera list is
empty, raise `IndexError` on an out-of-range index, then set
`current_idx`, close the old camera, and attempt to construct a new
`Camera`, catching construction failure as a `False` return. -/
def open_camera (env : Env) (s : AppState) (idx : Int) :
    Except Unit Bool × AppState :=
  let s1 := open_camera_pre env s
  if idx < 0 ∨ (s1.detectedCameras.length : Int) ≤ idx then
    (Except.error (), s1)
  else
    let s2 : AppState := { s1 with currentIdx := idx }
    let s3 : AppState := { s2 with camera := s2.camera.map Camera.close }
    let path := (s3.detectedCameras.getD idx.toNat defaultCamDevice).path
    match Camera.new env path s3.settingsState with
    | Except.ok c => (Except.ok true, { s3 with camera := some c })
    | Except.error _ => (Except.ok false, s3)

/-- Session-handle open counts observed at each sequential point of
`open_camera`: on the valid-index path, before the switch, after
`camera.close()`, and after the `Camera` construction attempt. -/
def open_camera_trace (env : Env) (s : AppState) (idx : Int) : List Nat :=
  let s1 := open_camera_pre env s
  if idx < 0 ∨ (s1.detectedCameras.length : Int) ≤ idx then
    [sessionOpenCount s1.camera]
  else
    let path := (s1.detectedCameras.getD idx.toNat defaultCamDevice).path
    [sessionOpenCount s1.camera, 0, if env.openOk path then 1 else 0]

/-- ASCII byte values of a string literal. -/
def asciiBytes (s : String) : List Nat :=
  s.data.map Char.toNat

/-- The multipart framing of one streamed chunk (app.py, lines 354-356 and
374-376): boundary header, JPEG payload, trailing CRLF. -/
def frameChunk (payload : List Nat) : List Nat :=
  asciiBytes ("--frame\r\nContent-Type: image/jpeg\r\n\r\n") ++ payload ++
    asciiBytes ("\r\n")

/-- Python truthiness of `not camera or not camera.is_opened()`
(app.py, line 351), negated. -/
def cameraOpenB (c : Option CamObj) : Bool :=
  match c with
  | some cam => Camera.is_opened cam
  | none => false

/-- State threaded through `generate_frames` (app.py, lines 348-376): the
module state plus the `USING_FALLBACK` flag. -/
structure GenState where
  app : AppState
  usingFallback : Bool
deriving DecidableEq, Repr

/-- One iteration of the `generate_frames` loop body.  Returns the chunk
yielded by this iteration (if any) and either the state at the next
iteration or `Except.error` when an exception escaped the loop (the
`open_camera(current_idx)` call on the fallback path is not guarded, so
its `IndexError` kills the generator).  `fb` is the `_fallback_bytes`
global. -/
def genIter (env : Env) (fb : List Nat) (s : GenState) :
    Option (List Nat) × Except Unit GenState :=
  if !cameraOpenB s.app.camera then
    if !fb.isEmpty then
      let chunk := frameChunk fb
      let s1 : GenState := { s with usingFallback := true }
      match open_camera env s1.app s1.app.currentIdx with
      | (Except.error _, _) => (some chunk, Except.error ())
      | (Except.ok _, app1) => (some chunk, Except.ok { s1 with app := app1 })
    else
      (none, Except.ok s)
  else
    match env.readResult with
    | none => (none, Except.ok s)
    | some frame =>
        let s1 : GenState := { s with usingFallback := false }
        match env.encodeResult frame with
        | none => (none, Except.ok s1)
        | some buf => (some (frameChunk buf), Except.ok s1)

/-- Iterated `generate_frames`: the yield and post-state of the n-th loop
iteration, with a per-iteration environment oracle; once the generator
has died (raised), every later iteration yields nothing. -/
def genSteps (envs : Nat → Env) (fb : List Nat) (s : GenState) :
    Nat → Option (List Nat) × Except Unit GenState
  | 0 => genIter (envs 0) fb s
  | n + 1 =>
      match genSteps envs fb s n with
      | (_, Except.error e) => (none, Except.error e)
      | (_, Except.ok s1) => genIter (envs (n + 1)) fb s1

/-- The on-disk device cache record (app.py, lines 208-212). -/
structure DeviceCacheFile where
  timestamp : ℚ
  cameras : List CamDevice
  audioDevices : List AudioDevice
deriving DecidableEq, Repr

/-- `cache_devices` (app.py, lines 204-215): the JSON record written to
`DEVICE_CACHE_PATH` at clock time `now`. -/
def cache_devices (now : ℚ) (cameras : List CamDevice)
    (audioDevices : List AudioDevice) : DeviceCacheFile :=
  { timestamp := now, cameras := cameras, audioDevices := audioDevices }

/-- `load_cached_devices` (app.py, lines 217-229): a missing or unreadable
file (`none`) and an expired timestamp both yield empty lists; a fresh
cache returns its stored lists.  `ttl` is `DEVICE_CACHE_TTL`. -/
def load_cached_devices (ttl : ℚ) (file : Option DeviceCacheFile)
    (now : ℚ) : List CamDevice × List AudioDevice :=
  match file with
  | none => ([], [])
  | some d =>
      if now - d.timestamp < ttl then (d.cameras, d.audioDevices) else ([], [])

/-- The device-loading portion of `on_startup` (app.py, lines 461-473):
use the cached lists only when both are non-empty (Python truthiness of
`if cached_cameras and cached_audio`), else call `refresh_devices`.
Returns the adopted lists and whether a fresh discovery was performed. -/
def startup_devices (ttl : ℚ) (file : Option DeviceCacheFile) (now : ℚ)
    (discovered : List CamDevice × List AudioDevice) :
    (List CamDevice × List AudioDevice) × Bool :=
  let loaded := load_cached_devices ttl file now
  if !loaded.1.isEmpty ∧ !loaded.2.isEmpty then (loaded, false)
  else (discovered, true)

/-- A Python value arriving through the JSON body of `POST /settings`,
classified by how `float(v)` behaves on it: numbers and booleans convert,
strings convert exactly when they parse as a float (the parse outcome is
carried in the constructor), `None` and container/other objects raise
`TypeError`. -/
inductive PyVal
  | num (q : ℚ)
  | str (parsed : Option ℚ)
  | pybool (b : Bool)
  | noneV
  | obj
deriving DecidableEq, Repr

/-- Outcome of Python `float(v)`. -/
inductive FloatRes
  | ok (q : ℚ)
  | valueError
  | typeError
deriving DecidableEq, Repr

/-- Python `float(v)` on a JSON-decoded value. -/
def pyFloat : PyVal → FloatRes
  | PyVal.num q => FloatRes.ok q
  | PyVal.pybool b => FloatRes.ok (if b then 1 else 0)
  | PyVal.str (some q) => FloatRes.ok q
  | PyVal.str none => FloatRes.valueError
  | PyVal.noneV => FloatRes.typeError
  | PyVal.obj => FloatRes.typeError

/-- The validation loop of `set_bulk` (app.py, lines 559-567): partition
the request into `to_apply` (a dict, built with dict-assignment) and
`invalid`; only `ValueError` from `float` is caught, a `TypeError`
propagates out of the endpoint (model: `Except.error`) before any state
is written. -/
def set_bulk_loop : List (String × PyVal) → List (String × ℚ) × List String →
    Except Unit (List (String × ℚ) × List String)
  | [], acc => Except.ok acc
  | (k, v) :: rest, (ta, inv) =>
      if k ∈ CAMERA_PROPS then
        match pyFloat v with
        | FloatRes.ok q => set_bulk_loop rest (dset ta k q, inv)
        | FloatRes.valueError => set_bulk_loop rest (ta, inv ++ [k])
        | FloatRes.typeError => Except.error ()
      else
        set_bulk_loop rest (ta, inv ++ [k])

/-- Response body of `POST /settings` (app.py, line 570). -/
structure BulkOut where
  applied : List String
  invalid : List String
  success : Bool
deriving DecidableEq, Repr

/-- `set_bulk` (app.py, lines 557-570): validate the request, merge the
accepted pairs into the process-wide `settings_state`, then attempt
`camera.update` (reported in `success`; `False` when no camera exists). -/
def set_bulk (env : Env) (req : List (String × PyVal))
    (st : List (String × ℚ)) (cam : Option CamObj) :
    Except Unit (BulkOut × List (String × ℚ) × Option CamObj) :=
  match set_bulk_loop req ([], []) with
  | Except.error _ => Except.error ()
  | Except.ok (ta, inv) =>
      let st1 := dictUpdate st ta
      match cam with
      | none =>
          Except.ok ({ applied := ta.map Prod.fst, invalid := inv,
                       success := false }, st1, none)
      | some c =>
          let r := Camera.update env c ta
          Except.ok ({ applied := ta.map Prod.fst, invalid := inv,
                       success := r.1 }, st1, some r.2)

/-- An external encoder subprocess handle: `running = (poll() is None)`. -/
structure Proc where
  running : Bool
deriving DecidableEq, Repr

/-- The `AVRecorder` thread object (views.py, lines 88-114) as observed by
the start/stop endpoints: `is_alive()`, the `proc` attribute (set inside
`run`, `None` right after construction), and the output path. -/
structure AVRec where
  alive : Bool
  proc : Option Proc
  outputPath : String
deriving DecidableEq, Repr

/-- The recording globals of views.py (lines 56-57): `_av_recorder` and
`_recording_start_time`. -/
structure RecState where
  avRecorder : Option AVRec
  recordingStartTime : Option ℚ
deriving DecidableEq, Repr

/-- The refusal test of `start_recording` (views.py, line 355):
`_av_recorder.is_alive() and proc and proc.poll() is None`. -/
def recActive (r : AVRec) : Bool :=
  r.alive &&
    (match r.proc with
     | some p => p.running
     | none => false)

/-- Request/collaborator inputs of one `start_recording` call: the
`GET /audio-sources` fetch outcome (`fetchOk = false` models any raise,
collapsed to `sources, default_idx = [], 0`), the optional `audio_idx`
form field (`some none` models a string `int()` rejects), the output path
built from the timestamp, and the wall clock. -/
structure StartEnv where
  fetchOk : Bool
  sources : List String
  activeIdx : Int
  audioIdxParam : Option (Option Int)
  outPath : String
  now : ℚ
deriving Repr

/-- Responses of `start_recording` (views.py, lines 349-405). -/
inductive StartResp
  | alreadyRecording
  | invalidAudioIdx
  | audioIdxOutOfRange
  | started (path : String)
deriving DecidableEq, Repr

/-- The body of `start_recording` after the active-recorder check
(views.py, lines 360-405).  The final `Bool` reports whether a new
`AVRecorder` thread was constructed and started. -/
def start_recording_body (env : StartEnv) (s : RecState) :
    StartResp × RecState × Bool :=
  let sources := if env.fetchOk then env.sources else []
  let dflt := if env.fetchOk then env.activeIdx else 0
  match env.audioIdxParam with
  | some none => (StartResp.invalidAudioIdx, s, false)
  | some (some i) =>
      if 0 ≤ i ∧ i < (sources.length : Int) then
        (StartResp.started env.outPath,
         { avRecorder := some { alive := true, proc := none,
                                outputPath := env.outPath },
           recordingStartTime := some env.now }, true)
      else (StartResp.audioIdxOutOfRange, s, false)
  | none =>
      if 0 ≤ dflt ∧ dflt < (sources.length : Int) then
        (StartResp.started env.outPath,
         { avRecorder := some { alive := true, proc := none,
                                outputPath := env.outPath },
           recordingStartTime := some env.now }, true)
      else (StartResp.audioIdxOutOfRange, s, false)

/-- `start_recording` (views.py, lines 349-405): refuse only when the old
recorder's thread is alive and its FFmpeg process is still running;
otherwise discard the stale handle and proceed. -/
def start_recording (env : StartEnv) (s : RecState) :
    StartResp × RecState × Bool :=
  match s.avRecorder with
  | some r =>
      if recActive r then (StartResp.alreadyRecording, s, false)
      else start_recording_body env { s with avRecorder := none }
  | none => start_recording_body env s

/-- Responses of `stop_recording` (views.py, lines 410-432). -/
inductive StopResp
  | notRecording
  | stopped (path : String)
deriving DecidableEq, Repr

/-- `stop_recording` (views.py, lines 410-432): with no recorder, return
the `Not recording` error untouched; otherwise terminate-and-join only
when FFmpeg is still running, then clear both globals.  The `Bool`
reports whether `stop()`/`join()` signalled the process. -/
def stop_recording (s : RecState) : StopResp × RecState × Bool :=
  match s.avRecorder with
  | none => (StopResp.notRecording, s, false)
  | some r =>
      let signalled :=
        match r.proc with
        | some p => p.running
        | none => false
      (StopResp.stopped r.outputPath,
       { avRecorder := none, recordingStartTime := none }, signalled)

/-- Characters of the final path component, as `os.path` sees it on a
POSIX host. -/
def basenameChars (cs : List Char) : List Char :=
  cs.foldl (fun acc c => if c = '/' then [] else acc ++ [c]) []

/-- Suffix of a character list starting at its last dot, if any. -/
def afterLastDot : List Char → Option (List Char)
  | [] => none
  | c :: rest =>
      match afterLastDot rest with
      | some s => some s
      | none => if c = '.' then some (c :: rest) else none

/-- Extension component of `os.path.splitext(p)`: the suffix of the last
path component from its last dot, where the dots of an all-dot prefix
(hidden files such as `.bashrc`) do not start an extension. -/
def splitextExt (p : String) : String :=
  let cs := basenameChars p.data
  let lead := cs.takeWhile (fun c => c = '.')
  let rest := cs.drop lead.length
  match afterLastDot rest with
  | some s => String.mk s
  | none => ""

/-- `StreamRecorder._choose_fourcc` (stream_recorder.py, lines 33-60).
Fourcc values are modelled by their four-character codes; `testOpen c`
reports whether the probe `cv2.VideoWriter(output_path, fourcc(c), fps,
(1,1))` opens. -/
def StreamRecorder.choose_fourcc (testOpen : String → Bool)
    (output_path : String) : String :=
  let ext := strToLower (splitextExt output_path)
  if ext = (".mp4") then
    if testOpen ("avc1") then "avc1"
    else if testOpen ("H264") then "H264"
    else "mp4v"
  else if ext = (".webm") then "VP80"
  else "mp4v"

/-- Environment of one iteration of a recording worker loop: the stop
flag sampled at the loop head, the open outcomes of `VideoCapture` and
`VideoWriter` when attempted, the frame-read outcome, and whether an
exception is raised inside this iteration's body. -/
structure RunIt where
  stop : Bool
  openOk : Bool
  writerOk : Bool
  readOk : Bool
  exc : Bool
deriving DecidableEq, Repr

/-- Resources held by a recording worker: an open capture handle and a
constructed video writer. -/
structure Res where
  capOpen : Bool
  writerOpen : Bool
deriving DecidableEq, Repr

/-- The `finally` block of `StreamRecorder.run` (stream_recorder.py,
lines 103-108): release whichever of the two resources exist. -/
def finallyRelease (_ : Res) : Res :=
  { capOpen := false, writerOpen := false }

/-- `StreamRecorder.run` (stream_recorder.py, lines 62-108), driven by a
finite schedule of per-iteration events.  `none` means the worker is
still looping when the schedule ends; `some r` is the resource state at
thread exit.  Every exit (cooperative stop or exception) flows through
`finallyRelease`; a failed capture open or failed writer open sleeps and
retries instead of exiting. -/
def StreamRecorder.run : List RunIt → Res → Option Res
  | [], _ => none
  | it :: rest, r =>
      if it.stop then some (finallyRelease r)
      else if !r.capOpen then
        if !it.openOk then
          if it.exc then some (finallyRelease r) else StreamRecorder.run rest r
        else if !it.writerOk then
          if it.exc then some (finallyRelease { capOpen := true, writerOpen := false })
          else StreamRecorder.run rest { capOpen := false, writerOpen := false }
        else
          if it.exc then some (finallyRelease { capOpen := true, writerOpen := true })
          else StreamRecorder.run rest { capOpen := true, writerOpen := true }
      else
        if it.exc then some (finallyRelease r) else StreamRecorder.run rest r

/-- The loop of the shadowing `StreamRecorder.run` in views.py
(lines 77-85): no exception handler, so a raise inside the loop exits the
thread holding whatever is open; only the cooperative-stop exit reaches
the `writer.release(); cap.release()` lines after the loop. -/
def ViewsStreamRecorder.runLoop : List RunIt → Res → Option Res
  | [], _ => none
  | it :: rest, r =>
      if it.stop then some { capOpen := false, writerOpen := false }
      else if it.exc then some r
      else ViewsStreamRecorder.runLoop rest r

/-- The shadowing `StreamRecorder.run` of views.py (lines 68-85): a failed
stream open returns immediately with nothing acquired; otherwise the
capture and the writer are constructed and the loop runs. -/
def ViewsStreamRecorder.run (openOk : Bool) (evs : List RunIt) : Option Res :=
  if !openOk then some { capOpen := false, writerOpen := false }
  else ViewsStreamRecorder.runLoop evs { capOpen := true, writerOpen := true }

/-- Boolean substring test, Python's `needle in hay`. -/
def isSubstring (needle hay : String) : Bool :=
  (List.range (hay.toList.length + 1)).any
    (fun i => needle.toList.isPrefixOf (hay.toList.drop i))

/-- One line of the `arecord -L` parse loop (app.py, lines 147-156):
non-indented, non-empty lines not starting with `null` become ALSA
entries. -/
def alsaStep (devices : List AudioDevice) (line : String) : List AudioDevice :=
  if strStartsWith line (" ") then devices
  else
    let cur := strTrim line
    if cur != "" && !(strStartsWith cur ("null")) then
      devices ++ [{ id := devices.length, path := cur, name := cur,
                    dtype := "alsa" }]
    else devices

/-- One line of the `pactl list sources` parse loop (app.py, lines
173-189): a `Name:` line records the pending device, a `Description:`
line (with a pending, truthy device) emits a pulse entry unless the name
contains `monitor` or duplicates an already-listed path, and resets the
pending device. -/
def pulseStep (st : List AudioDevice × Option String) (line0 : String) :
    List AudioDevice × Option String :=
  let line := strTrim line0
  let devices := st.1
  let curDev := st.2
  if strStartsWith line ("Name:") then (devices, some (strTrim (strDrop line 5)))
  else if strStartsWith line ("Description:") then
    match curDev with
    | some cd =>
        if cd = "" then (devices, curDev)
        else
          let nm := strTrim (strDrop line 12)
          if !(isSubstring ("monitor") (strToLower cd)) &&
              !((devices.map (fun d => d.path)).contains cd) then
            (devices ++ [{ id := devices.length, path := cd,
                           name := if nm = "" then cd else nm,
                           dtype := "pulse" }], none)
          else (devices, none)
    | none => (devices, none)
  else (devices, curDev)

/-- `detect_audio_devices` (app.py, lines 129-202).  Each tool result is
`none` when the binary is absent (`FileNotFoundError`), else the exit
code and stdout lines; a tool's parse runs only on exit code 0.  A
synthetic `System Default` entry is appended when no listed path is
`default`. -/
def detect_audio_devices (arecordRes pactlRes : Option (Int × List String)) :
    List AudioDevice :=
  let d0 : List AudioDevice := []
  let d1 :=
    match arecordRes with
    | some (rc, lines) => if rc = 0 then lines.foldl alsaStep d0 else d0
    | none => d0
  let d2 :=
    match pactlRes with
    | some (rc, lines) =>
        if rc = 0 then (lines.foldl pulseStep (d1, none)).1 else d1
    | none => d1
  if d2.any (fun d => d.path == "default") then d2
  else d2 ++ [{ id := d2.length, path := "default", name := "System Default",
                dtype := "default" }]

/-- Fixture: environment in which every hardware operation fails and
discovery finds no devices. -/
def envAllFail : Env :=
  { openOk := fun _ => false, setOk := fun _ _ => false,
    detectCameras := [], detectAudio := [],
    readResult := none, encodeResult := fun _ => none }

/-- Fixture: discovered camera 0. -/
def dev0 : CamDevice :=
  { id := 0, path := "/dev/video0", name := "Camera 0",
    width := 640, height := 480, fps := 30 }

/-- Fixture: discovered camera 1. -/
def dev1 : CamDevice :=
  { id := 1, path := "/dev/video1", name := "Camera 1",
    width := 640, height := 480, fps := 30 }

/-- Fixture: the synthetic default audio entry. -/
def audDefault : AudioDevice :=
  { id := 0, path := "default", name := "System Default", dtype := "default" }

/-- Fixture: environment where only `/dev/video0` can be opened. -/
def envVideo0 : Env :=
  { envAllFail with openOk := fun p => p == "/dev/video0" }

/-- Fixture: module state with two detected cameras, index 0 active and
open. -/
def sTwoCams : AppState :=
  { detectedCameras := [dev0, dev1], detectedAudio := [audDefault],
    currentIdx := 0,
    camera := some { source := "/dev/video0", config := [], capture := some true },
    settingsState := [] }

/-- Fixture: streaming state with one detected camera and no open
session. -/
def gsOneCam : GenState :=
  { app := { detectedCameras := [dev0], detectedAudio := [],
             currentIdx := 0, camera := none, settingsState := [] },
    usingFallback := false }

/-- Fixture: streaming state with an empty detected-camera list and no
open session. -/
def gsNoCams : GenState :=
  { app := { detectedCameras := [], detectedAudio := [],
             currentIdx := 0, camera := none, settingsState := [] },
    usingFallback := false }

/-- Fixture: a camera object whose capture handle has been closed. -/
def camClosed : CamObj :=
  { source := "/dev/video0", config := [("brightness", 1)], capture := none }

/-- Fixture: worker iteration that observes the stop flag. -/
def runItStop : RunIt :=
  { stop := true, openOk := true, writerOk := true, readOk := true, exc := false }

/-- Fixture: worker iteration whose body raises with resources held. -/
def runItExc : RunIt :=
  { stop := false, openOk := true, writerOk := true, readOk := true, exc := true }

/-- Fixture: a `start_recording` request context whose audio-source fetch
succeeds and whose form index is valid. -/
def startEnvOk : StartEnv :=
  { fetchOk := true, sources := ["default"], activeIdx := 0,
    audioIdxParam := some (some 0),
    outPath := "/media/videos/av_20250101_000000.mp4", now := 100 }

/-- Fixture: recorder slot holding a live thread with a running FFmpeg. -/
def recLive : RecState :=
  { avRecorder := some { alive := true, proc := some { running := true },
                         outputPath := "/media/videos/old.mp4" },
    recordingStartTime := some 7 }

/-- Fixture: recorder slot holding a stale handle (FFmpeg exited). -/
def recStale : RecState :=
  { avRecorder := some { alive := true, proc := some { running := false },
                         outputPath := "/media/videos/old.mp4" },
    recordingStartTime := some 7 }

theorem dlookup_dset_self {α : Type} (m : List (String × α)) (k : String)
    (v : α) : dlookup (dset m k v) k = some v := by
  induction m with
  | nil => simp [dset, dlookup]
  | cons kv rest ih =>
      obtain ⟨k1, v1⟩ := kv
      by_cases h : k1 = k
      · simp [dset, h, dlookup]
      · simp [dset, h, dlookup, ih]

theorem dlookup_dset_of_ne {α : Type} (m : List (String × α)) (k1 k : String)
    (v : α) (h : k1 ≠ k) : dlookup (dset m k1 v) k = dlookup m k := by
  induction m with
  | nil => simp [dset, dlookup, h]
  | cons kv rest ih =>
      obtain ⟨k2, v2⟩ := kv
      by_cases h2 : k2 = k1
      · subst h2; simp [dset, dlookup, h]
      · by_cases h3 : k2 = k
        · subst h3; simp [dset, h2, dlookup]
        · simp [dset, h2, dlookup, h3, ih]

theorem dlookup_eq_none_iff {α : Type} (m : List (String × α)) (k : String) :
    dlookup m k = none ↔ k ∉ m.map Prod.fst := by
  induction m with
  | nil => simp [dlookup]
  | cons kv rest ih =>
      obtain ⟨k1, v1⟩ := kv
      by_cases h : k1 = k
      · subst h; simp [dlookup]
      · simp [dlookup, h, ih, Ne.symm h]

theorem mem_keys_dset {α : Type} (m : List (String × α)) (k a : String)
    (v : α) : a ∈ (dset m k v).map Prod.fst ↔ a ∈ m.map Prod.fst ∨ a = k := by
  induction m with
  | nil => simp [dset]
  | cons kv rest ih =>
      obtain ⟨k1, v1⟩ := kv
      by_cases h : k1 = k
      · subst h; simp [dset]; tauto
      · simp [dset, h, ih]; tauto

theorem nodup_keys_dset {α : Type} (m : List (String × α)) (k : String)
    (v : α) (h : (m.map Prod.fst).Nodup) :
    ((dset m k v).map Prod.fst).Nodup := by
  induction m with
  | nil => simp [dset]
  | cons kv rest ih =>
      obtain ⟨k1, v1⟩ := kv
      rw [List.map_cons, List.nodup_cons] at h
      by_cases hk : k1 = k
      · subst hk
        have hd : dset ((k1, v1) :: rest) k1 v = (k1, v) :: rest := by
          simp [dset]
        rw [hd, List.map_cons, List.nodup_cons]
        exact h
      · have hd : dset ((k1, v1) :: rest) k v = (k1, v1) :: dset rest k v := by
          simp [dset, hk]
        rw [hd, List.map_cons, List.nodup_cons]
        refine ⟨?_, ih h.2⟩
        intro hc
        rcases (mem_keys_dset rest k k1 v).mp hc with hm | he
        · exact h.1 hm
        · exact hk he

theorem dlookup_dictUpdate_notmem {α : Type} (new : List (String × α)) :
    ∀ (m : List (String × α)) (k : String), k ∉ new.map Prod.fst →
      dlookup (dictUpdate m new) k = dlookup m k := by
  induction new with
  | nil => intro m k _; rfl
  | cons kv rest ih =>
      intro m k h
      obtain ⟨k1, v1⟩ := kv
      rw [List.map_cons] at h
      have h1 : k ≠ k1 := fun he => h (by rw [he]; exact List.mem_cons_self _ _)
      have h2 : k ∉ rest.map Prod.fst := fun hm => h (List.mem_cons_of_mem _ hm)
      show dlookup (dictUpdate (dset m k1 v1) rest) k = dlookup m k
      rw [ih _ _ h2, dlookup_dset_of_ne _ _ _ _ (Ne.symm h1)]

theorem dlookup_dictUpdate_of_lookup {α : Type} (new : List (String × α)) :
    ∀ (m : List (String × α)) (k : String) (q : α),
      (new.map Prod.fst).Nodup → dlookup new k = some q →
      dlookup (dictUpdate m new) k = some q := by
  induction new with
  | nil => intro m k q _ h; simp [dlookup] at h
  | cons kv rest ih =>
      intro m k q hn h
      obtain ⟨k1, v1⟩ := kv
      rw [List.map_cons, List.nodup_cons] at hn
      by_cases hk : k1 = k
      · subst hk
        have hv : v1 = q := by simpa [dlookup] using h
        show dlookup (dictUpdate (dset m k1 v1) rest) k1 = some q
        rw [dlookup_dictUpdate_notmem rest _ _ hn.1, dlookup_dset_self, hv]
      · have h2 : dlookup rest k = some q := by simpa [dlookup, hk] using h
        show dlookup (dictUpdate (dset m k1 v1) rest) k = some q
        exact ih _ _ _ hn.2 h2

theorem sessionOpenCount_le_one (c : Option CamObj) : sessionOpenCount c ≤ 1 := by
  cases c with
  | none => simp [sessionOpenCount]
  | some cam => simp [sessionOpenCount]; split <;> simp

theorem cameraOpenB_map_close (c : Option CamObj) :
    cameraOpenB (c.map Camera.close) = false := by
  cases c <;> simp [cameraOpenB, Camera.close, Camera.is_opened]

/-- C8: stop_recording called when no recorder exists returns the
Not-recording error and has no side effects: the recorder slot and the
recording start time keep their prior values and no process is signalled
or joined. -/
theorem C8_stop_recording_idle_noop (s : RecState) (h : s.avRecorder = none) :
    stop_recording s = (StopResp.notRecording, s, false) := by
  obtain ⟨r, t⟩ := s
  simp only at h
  subst h
  rfl

theorem C8_stop_recording_idle_noop_witness :
    stop_recording { avRecorder := none, recordingStartTime := some 5 } =
      (StopResp.notRecording,
       { avRecorder := none, recordingStartTime := some 5 }, false) :=
  C8_stop_recording_idle_noop _ rfl

/-- C5: caching device lists at time ts and loading within the ttl returns
exactly the cached camera and audio lists; a load at or after expiry
returns empty lists, and startup then performs a fresh discovery instead
of using the cache. -/
theorem C5_device_cache_roundtrip (ttl ts now : ℚ) (cams : List CamDevice)
    (auds : List AudioDevice) (discovered : List CamDevice × List AudioDevice) :
    (now - ts < ttl →
      load_cached_devices ttl (some (cache_devices ts cams auds)) now =
        (cams, auds)) ∧
    (ttl ≤ now - ts →
      load_cached_devices ttl (some (cache_devices ts cams auds)) now =
        ([], []) ∧
      startup_devices ttl (some (cache_devices ts cams auds)) now discovered =
        (discovered, true)) := by
  constructor
  · intro h
    simp [load_cached_devices, cache_devices, h]
  · intro h
    have h2 : ¬(now - ts < ttl) := not_lt.mpr h
    refine ⟨by simp [load_cached_devices, cache_devices, h2], ?_⟩
    simp [startup_devices, load_cached_devices, cache_devices, h2]

theorem C5_device_cache_roundtrip_witness :
    load_cached_devices 3600 (some (cache_devices 100 [dev0] [audDefault])) 200 =
      ([dev0], [audDefault]) ∧
    load_cached_devices 3600 (some (cache_devices 100 [dev0] [audDefault])) 4000 =
      ([], []) ∧
    startup_devices 3600 (some (cache_devices 100 [dev0] [audDefault])) 4000
      ([dev1], []) = (([dev1], []), true) := by
  refine ⟨(C5_device_cache_roundtrip 3600 100 200 [dev0] [audDefault]
            ([dev1], [])).1 (by norm_num), ?_, ?_⟩
  · exact ((C5_device_cache_roundtrip 3600 100 4000 [dev0] [audDefault]
      ([dev1], [])).2 (by norm_num)).1
  · exact ((C5_device_cache_roundtrip 3600 100 4000 [dev0] [audDefault]
      ([dev1], [])).2 (by norm_num)).2

/-- C6: the recording codec is selected from the lower-cased extension of
the output path alone: for .mp4 the two H.264 identifiers avc1 and H264
are probed by test-opening a writer, falling back to mp4v when neither
opens; .webm yields VP80; every other extension yields the default
mp4v. -/
theorem C6_choose_fourcc_by_extension (testOpen : String → Bool) (p : String) :
    (strToLower (splitextExt p) = (".mp4") → testOpen ("avc1") = true →
       StreamRecorder.choose_fourcc testOpen p = "avc1") ∧
    (strToLower (splitextExt p) = (".mp4") → testOpen ("avc1") = false →
       testOpen ("H264") = true →
       StreamRecorder.choose_fourcc testOpen p = "H264") ∧
    (strToLower (splitextExt p) = (".mp4") → testOpen ("avc1") = false →
       testOpen ("H264") = false →
       StreamRecorder.choose_fourcc testOpen p = "mp4v") ∧
    (strToLower (splitextExt p) = (".webm") →
       StreamRecorder.choose_fourcc testOpen p = "VP80") ∧
    (strToLower (splitextExt p) ≠ (".mp4") →
       strToLower (splitextExt p) ≠ (".webm") →
       StreamRecorder.choose_fourcc testOpen p = "mp4v") := by
  refine ⟨?_, ?_, ?_, ?_, ?_⟩
  · intro h ha; simp [StreamRecorder.choose_fourcc, h, ha]
  · intro h ha hb; simp [StreamRecorder.choose_fourcc, h, ha, hb]
  · intro h ha hb; simp [StreamRecorder.choose_fourcc, h, ha, hb]
  · intro h; simp [StreamRecorder.choose_fourcc, h]
  · intro h1 h2; simp [StreamRecorder.choose_fourcc, h1, h2]

theorem C6_choose_fourcc_by_extension_witness :
    StreamRecorder.choose_fourcc (fun _ => false) ("/media/videos/out.MP4") =
      "mp4v" ∧
    StreamRecorder.choose_fourcc (fun c => c == "avc1") ("a.mp4") = "avc1" ∧
    StreamRecorder.choose_fourcc (fun _ => false) ("clip.webm") = "VP80" ∧
    StreamRecorder.choose_fourcc (fun _ => false) ("photo.jpg.avi") = "mp4v" := by
  refine ⟨(C6_choose_fourcc_by_extension (fun _ => false)
            ("/media/videos/out.MP4")).2.2.1 (by decide) rfl rfl, ?_, ?_, ?_⟩
  · exact (C6_choose_fourcc_by_extension (fun c => c == "avc1")
      ("a.mp4")).1 (by decide) (by decide)
  · exact (C6_choose_fourcc_by_extension (fun _ => false)
      ("clip.webm")).2.2.2.1 (by decide)
  · exact (C6_choose_fourcc_by_extension (fun _ => false)
      ("photo.jpg.avi")).2.2.2.2 (by decide) (by decide)

/-- C3: while a recording is active (recorder thread alive and its FFmpeg
process still running) start_recording returns the Already-recording
error, changes nothing and spawns no second worker; a stale handle (its
process has exited) is discarded and, with a valid audio index available,
a fresh recording is started in its place. -/
theorem C3_start_recording_singleton (env : StartEnv) (s : RecState)
    (r : AVRec) (hr : s.avRecorder = some r) :
    (recActive r = true →
      start_recording env s = (StartResp.alreadyRecording, s, false)) ∧
    (∀ p i, r.proc = some p → p.running = false →
      env.audioIdxParam = some (some i) → env.fetchOk = true →
      0 ≤ i → i < (env.sources.length : Int) →
      start_recording env s =
        (StartResp.started env.outPath,
         { avRecorder := some { alive := true, proc := none,
                                outputPath := env.outPath },
           recordingStartTime := some env.now }, true)) := by
  constructor
  · intro ha
    simp [start_recording, hr, ha]
  · intro p i hp hrun hparam hfetch h0 hlen
    have hact : recActive r = false := by
      simp [recActive, hp, hrun]
    simp [start_recording, hr, hact, start_recording_body, hparam, hfetch,
          h0, hlen]

theorem C3_start_recording_singleton_witness :
    start_recording startEnvOk recLive =
      (StartResp.alreadyRecording, recLive, false) ∧
    start_recording startEnvOk recStale =
      (StartResp.started ("/media/videos/av_20250101_000000.mp4"),
       { avRecorder := some { alive := true, proc := none,
                              outputPath := "/media/videos/av_20250101_000000.mp4" },
         recordingStartTime := some 100 }, true) := by
  refine ⟨(C3_start_recording_singleton startEnvOk recLive _ rfl).1 rfl, ?_⟩
  exact (C3_start_recording_singleton startEnvOk recStale _ rfl).2
    { running := false } 0 rfl rfl rfl rfl (by decide) (by decide)

theorem apply_settings_of_closed (env : Env) (c : CamObj)
    (h : Camera.is_opened c = false) : Camera.apply_settings env c = false := by
  cases hc : c.capture with
  | none => simp [Camera.apply_settings, hc]
  | some b =>
      simp [Camera.is_opened, hc] at h
      simp [Camera.apply_settings, hc, h]

theorem Camera.reinit_config (env : Env) (c : CamObj) :
    (Camera.reinit env c).2.config = c.config := by
  unfold Camera.reinit Camera.init_camera
  by_cases h : env.openOk c.source
  · simp [h]
  · simp [h]

theorem Camera.update_config (env : Env) (c : CamObj)
    (new : List (String × ℚ)) :
    (Camera.update env c new).2.config = dictUpdate c.config new := by
  unfold Camera.update
  by_cases h : Camera.apply_settings env { c with config := dictUpdate c.config new }
  · simp [h]
  · simp [h, Camera.reinit_config]

/-- C4: updating settings on a camera whose capture handle is closed never
raises (every raise inside the reopen path is caught); it returns False
when the recovery reopen also fails, and every config key outside the
update argument keeps its previous value. -/
theorem C4_update_on_closed_camera (env : Env) (c : CamObj)
    (new : List (String × ℚ)) (hclosed : Camera.is_opened c = false) :
    (env.openOk c.source = false → (Camera.update env c new).1 = false) ∧
    (∀ k, k ∉ new.map Prod.fst →
      dlookup (Camera.update env c new).2.config k = dlookup c.config k) := by
  constructor
  · intro hopen
    unfold Camera.update
    have h1 : Camera.apply_settings env
        { c with config := dictUpdate c.config new } = false :=
      apply_settings_of_closed env _ hclosed
    simp [h1, Camera.reinit, Camera.init_camera, hopen]
  · intro k hk
    rw [Camera.update_config]
    exact dlookup_dictUpdate_notmem new _ _ hk

theorem C4_update_on_closed_camera_witness :
    (Camera.update envAllFail camClosed [("contrast", 3)]).1 = false ∧
    dlookup (Camera.update envAllFail camClosed [("contrast", 3)]).2.config
        ("brightness") = dlookup camClosed.config ("brightness") := by
  have h := C4_update_on_closed_camera envAllFail camClosed
    [("contrast", 3)] (by decide)
  exact ⟨h.1 rfl, h.2 ("brightness") (by decide)⟩

theorem streamRecorderRun_cleanup (evs : List RunIt) :
    ∀ r res, StreamRecorder.run evs r = some res →
      res.capOpen = false ∧ res.writerOpen = false := by
  induction evs with
  | nil => intro r res h; simp [StreamRecorder.run] at h
  | cons it rest ih =>
      intro r res h
      unfold StreamRecorder.run at h
      repeat' split at h
      all_goals
        first
          | (obtain rfl := Option.some.inj h; exact ⟨rfl, rfl⟩)
          | (exact ih _ _ h)

theorem viewsRunLoop_cleanup (evs : List RunIt) :
    ∀ r res, (∀ it ∈ evs, it.exc = false) →
      ViewsStreamRecorder.runLoop evs r = some res →
      res.capOpen = false ∧ res.writerOpen = false := by
  induction evs with
  | nil => intro r res _ h; simp [ViewsStreamRecorder.runLoop] at h
  | cons it rest ih =>
      intro r res hexc h
      have hit : it.exc = false := hexc it (List.mem_cons_self _ _)
      cases hstop : it.stop
      · simp [ViewsStreamRecorder.runLoop, hstop, hit] at h
        exact ih r res (fun x hx => hexc x (List.mem_cons_of_mem _ hx)) h
      · simp [ViewsStreamRecorder.runLoop, hstop] at h
        subst h
        exact ⟨rfl, rfl⟩

/-- C7 (amended): the stream_recorder.py frame-writer worker releases its
capture handle and writer on every exit path (cooperative stop and fatal
exception; a failed open retries rather than exits) thanks to its
try/finally; the shadowing views.py variant guarantees this only on its
exception-free exits — the cooperative stop and the immediate
failed-open return — while an exception exits it holding whatever was
open. -/
theorem C7_recorder_releases_resources (evs : List RunIt) :
    (∀ r res, StreamRecorder.run evs r = some res →
      res.capOpen = false ∧ res.writerOpen = false) ∧
    (∀ openOk res, (∀ it ∈ evs, it.exc = false) →
      ViewsStreamRecorder.run openOk evs = some res →
      res.capOpen = false ∧ res.writerOpen = false) := by
  refine ⟨streamRecorderRun_cleanup evs, ?_⟩
  intro openOk res hexc h
  unfold ViewsStreamRecorder.run at h
  cases hopen : openOk
  · simp [hopen] at h
    subst h
    exact ⟨rfl, rfl⟩
  · simp [hopen] at h
    exact viewsRunLoop_cleanup evs _ _ hexc h

theorem C7_recorder_releases_resources_witness :
    (∃ res, StreamRecorder.run [runItExc]
        { capOpen := false, writerOpen := false } = some res ∧
      res.capOpen = false ∧ res.writerOpen = false) ∧
    (∃ res, ViewsStreamRecorder.run true [runItStop] = some res ∧
      res.capOpen = false ∧ res.writerOpen = false) := by
  constructor
  · have hrun : StreamRecorder.run [runItExc]
        { capOpen := false, writerOpen := false } =
        some { capOpen := false, writerOpen := false } := by decide
    exact ⟨_, hrun, (C7_recorder_releases_resources [runItExc]).1 _ _ hrun⟩
  · have hrun : ViewsStreamRecorder.run true [runItStop] =
        some { capOpen := false, writerOpen := false } := by decide
    exact ⟨_, hrun,
      (C7_recorder_releases_resources [runItStop]).2 true _ (by decide) hrun⟩

/-- C7 counterexample: an exception in the views.py StreamRecorder loop
exits the worker with both the capture and the writer still held, so the
claimed release-on-every-exit fails for the fatal-exception path of that
variant. -/
theorem C7_counterexample :
    ViewsStreamRecorder.run true [runItExc] =
      some { capOpen := true, writerOpen := true } := by decide

theorem open_camera_pre_currentIdx (env : Env) (s : AppState) :
    (open_camera_pre env s).currentIdx = s.currentIdx := by
  unfold open_camera_pre
  split <;> rfl

theorem open_camera_pre_camera (env : Env) (s : AppState) :
    (open_camera_pre env s).camera = s.camera := by
  unfold open_camera_pre
  split <;> rfl

/-- C1 (amended): an out-of-range index makes open_camera raise IndexError
with the active index and the camera slot unchanged; a failed device open
returns False with the old handle closed but sets the active index to the
requested idx (it is not left at the last successfully-opened value); and
at every sequential point of the switch at most one session capture
handle is open. -/
theorem C1_open_camera_switch_safety (env : Env) (s : AppState) (idx : Int) :
    ((idx < 0 ∨ ((open_camera_pre env s).detectedCameras.length : Int) ≤ idx) →
      (open_camera env s idx).1 = Except.error () ∧
      (open_camera env s idx).2.currentIdx = s.currentIdx ∧
      (open_camera env s idx).2.camera = s.camera) ∧
    (¬(idx < 0 ∨ ((open_camera_pre env s).detectedCameras.length : Int) ≤ idx) →
      env.openOk ((open_camera_pre env s).detectedCameras.getD idx.toNat
          defaultCamDevice).path = false →
      (open_camera env s idx).1 = Except.ok false ∧
      (open_camera env s idx).2.currentIdx = idx ∧
      cameraOpenB (open_camera env s idx).2.camera = false) ∧
    (∀ n ∈ open_camera_trace env s idx, n ≤ 1) := by
  refine ⟨?_, ?_, ?_⟩
  · intro h
    simp [open_camera, h, open_camera_pre_currentIdx, open_camera_pre_camera]
  · intro h hopen
    have hnew : Camera.new env
        ((open_camera_pre env s).detectedCameras.getD idx.toNat
          defaultCamDevice).path (open_camera_pre env s).settingsState =
        Except.error () := by
      simp only [Camera.new, Camera.init_camera]
      rw [if_neg (by rw [hopen]; exact Bool.false_ne_true)]
    refine ⟨?_, ?_, ?_⟩
    · simp only [open_camera]
      rw [if_neg h, hnew]
    · simp only [open_camera]
      rw [if_neg h, hnew]
    · simp only [open_camera]
      rw [if_neg h, hnew]
      exact cameraOpenB_map_close _
  · intro n hn
    simp only [open_camera_trace] at hn
    split at hn
    · simp at hn
      subst hn
      exact sessionOpenCount_le_one _
    · simp at hn
      rcases hn with h | h | h
      · subst h; exact sessionOpenCount_le_one _
      · subst h; exact Nat.zero_le _
      · subst h; split <;> simp

/-- C1 counterexample: with index 0 open (the last successfully-opened
source) and the open of source 1 failing, open_camera 1 returns False but
leaves the active index at 1, not at the last successfully-opened value
0. -/
theorem C1_counterexample :
    cameraOpenB sTwoCams.camera = true ∧ sTwoCams.currentIdx = 0 ∧
    (open_camera envVideo0 sTwoCams 1).1 = Except.ok false ∧
    (open_camera envVideo0 sTwoCams 1).2.currentIdx = 1 := by decide

theorem C1_open_camera_switch_safety_witness :
    (open_camera envVideo0 sTwoCams 5).1 = Except.error () ∧
    (open_camera envVideo0 sTwoCams 5).2.currentIdx = sTwoCams.currentIdx ∧
    (open_camera envVideo0 sTwoCams 5).2.camera = sTwoCams.camera ∧
    (open_camera envVideo0 sTwoCams 1).1 = Except.ok false ∧
    cameraOpenB (open_camera envVideo0 sTwoCams 1).2.camera = false ∧
    ∀ n ∈ open_camera_trace envVideo0 sTwoCams 1, n ≤ 1 := by
  have h1 := (C1_open_camera_switch_safety envVideo0 sTwoCams 5).1 (by decide)
  have h2 := (C1_open_camera_switch_safety envVideo0 sTwoCams 1).2.1
    (by decide) (by decide)
  exact ⟨h1.1, h1.2.1, h1.2.2, h2.1, h2.2.2,
    (C1_open_camera_switch_safety envVideo0 sTwoCams 1).2.2⟩

theorem genIter_fallback_step (env : Env) (fb : List Nat) (s : GenState)
    (hfb : fb ≠ [])
    (hopen : ∀ p, env.openOk p = false)
    (hclosed : cameraOpenB s.app.camera = false)
    (hne : s.app.detectedCameras ≠ [])
    (h0 : 0 ≤ s.app.currentIdx)
    (hlt : s.app.currentIdx < (s.app.detectedCameras.length : Int)) :
    genIter env fb s =
      (some (frameChunk fb),
       Except.ok { app := { s.app with camera := s.app.camera.map Camera.close },
                   usingFallback := true }) := by
  have hfbe : fb.isEmpty = false := by
    cases fb with
    | nil => exact absurd rfl hfb
    | cons a l => rfl
  have hdet : s.app.detectedCameras.isEmpty = false := by
    cases hd : s.app.detectedCameras with
    | nil => exact absurd hd hne
    | cons a l => rfl
  have hpre : open_camera_pre env s.app = s.app := by
    unfold open_camera_pre
    rw [hdet, if_neg Bool.false_ne_true]
  have hvalid : ¬(s.app.currentIdx < 0 ∨
      ((s.app.detectedCameras.length : Int) ≤ s.app.currentIdx)) := by
    push_neg
    exact ⟨h0, hlt⟩
  have hnew : Camera.new env
      ((s.app.detectedCameras.getD s.app.currentIdx.toNat
        defaultCamDevice).path) s.app.settingsState = Except.error () := by
    simp only [Camera.new, Camera.init_camera]
    rw [if_neg (by rw [hopen]; exact Bool.false_ne_true)]
  have hoc : open_camera env s.app s.app.currentIdx =
      (Except.ok false,
       { s.app with camera := s.app.camera.map Camera.close }) := by
    simp only [open_camera]
    rw [hpre, if_neg hvalid, hnew]
  simp only [genIter, hclosed, hfbe, Bool.not_false, if_true]
  rw [hoc]

/-- C2 (amended): with a fallback image configured and every attempt to
open the camera failing, and provided the active index stays a valid
index of the non-empty detected-camera list (so the unguarded reopen
cannot raise IndexError), every iteration of generate_frames yields
exactly the fallback image framed as a multipart chunk and the generator
never raises; errors from the failed Camera construction are swallowed
inside open_camera. -/
theorem C2_fallback_stream_never_terminates (envs : Nat → Env)
    (fb : List Nat) (s : GenState) (hfb : fb ≠ [])
    (hopen : ∀ n p, (envs n).openOk p = false)
    (hclosed : cameraOpenB s.app.camera = false)
    (hne : s.app.detectedCameras ≠ [])
    (h0 : 0 ≤ s.app.currentIdx)
    (hlt : s.app.currentIdx < (s.app.detectedCameras.length : Int)) :
    ∀ n, ∃ s1, genSteps envs fb s n = (some (frameChunk fb), Except.ok s1) ∧
      cameraOpenB s1.app.camera = false ∧
      s1.app.detectedCameras = s.app.detectedCameras ∧
      s1.app.currentIdx = s.app.currentIdx := by
  intro n
  induction n with
  | zero =>
      refine ⟨_, genIter_fallback_step (envs 0) fb s hfb (hopen 0) hclosed
        hne h0 hlt, ?_, rfl, rfl⟩
      exact cameraOpenB_map_close _
  | succ n ih =>
      obtain ⟨s1, hstep, hcl, hdet, hidx⟩ := ih
      have hstep2 := genIter_fallback_step (envs (n + 1)) fb s1 hfb
        (hopen (n + 1)) hcl (by rw [hdet]; exact hne) (by rw [hidx]; exact h0)
        (by rw [hidx, hdet]; exact hlt)
      have heq : genSteps envs fb s (n + 1) = genIter (envs (n + 1)) fb s1 := by
        unfold genSteps
        rw [hstep]
      refine ⟨{ app := { s1.app with
                  camera := Option.map Camera.close s1.app.camera },
                usingFallback := true }, ?_, ?_, ?_, ?_⟩
      · rw [heq, hstep2]
      · exact cameraOpenB_map_close _
      · exact hdet
      · exact hidx

/-- C2 counterexample: with the fallback configured and every open failing
but no cameras discovered, the first iteration yields a chunk and then
the unguarded open_camera reopen raises IndexError out of the generator,
so the second element does not exist — the reopen error is not swallowed
as claimed. -/
theorem C2_counterexample :
    ([1] : List Nat) ≠ [] ∧
    (∀ p, envAllFail.openOk p = false) ∧
    (genSteps (fun _ => envAllFail) [1] gsNoCams 0).2 = Except.error () ∧
    (genSteps (fun _ => envAllFail) [1] gsNoCams 1).1 = none := by
  exact ⟨by decide, fun p => rfl, by decide, by decide⟩

theorem C2_fallback_stream_never_terminates_witness :
    (genSteps (fun _ => envAllFail) [7] gsOneCam 2).1 = some (frameChunk [7]) ∧
    ∃ s1, (genSteps (fun _ => envAllFail) [7] gsOneCam 2).2 = Except.ok s1 := by
  obtain ⟨s1, heq, _, _, _⟩ := C2_fallback_stream_never_terminates
    (fun _ => envAllFail) [7] gsOneCam (by decide) (fun n p => rfl)
    (by decide) (by decide) (by decide) (by decide) 2
  exact ⟨by rw [heq], ⟨s1, by rw [heq]⟩⟩

theorem alsaStep_pairwise (d : List AudioDevice) (line : String)
    (h : List.Pairwise (fun x y => y.dtype = "pulse" → x.path ≠ y.path) d) :
    List.Pairwise (fun x y => y.dtype = "pulse" → x.path ≠ y.path)
      (alsaStep d line) := by
  unfold alsaStep
  split
  · exact h
  · dsimp only
    split
    · rw [List.pairwise_append]
      refine ⟨h, by simp, ?_⟩
      intro a ha b hb
      rw [List.mem_singleton] at hb
      subst hb
      intro hc
      exact absurd hc (by decide : ¬("alsa" : String) = "pulse")
    · exact h

theorem alsaFold_pairwise (lines : List String) :
    ∀ d, List.Pairwise (fun x y => y.dtype = "pulse" → x.path ≠ y.path) d →
      List.Pairwise (fun x y => y.dtype = "pulse" → x.path ≠ y.path)
        (lines.foldl alsaStep d) := by
  induction lines with
  | nil => intro d h; exact h
  | cons l rest ih => intro d h; exact ih _ (alsaStep_pairwise d l h)

theorem pulseStep_pairwise (devices : List AudioDevice) (cur : Option String)
    (line : String)
    (h : List.Pairwise (fun x y => y.dtype = "pulse" → x.path ≠ y.path)
      devices) :
    List.Pairwise (fun x y => y.dtype = "pulse" → x.path ≠ y.path)
      (pulseStep (devices, cur) line).1 := by
  unfold pulseStep
  dsimp only
  split
  · exact h
  · split
    · cases cur with
      | none => exact h
      | some cd =>
          dsimp only
          split
          · exact h
          · split
            · next hg =>
                have hnot : cd ∉ devices.map (fun d => d.path) := by
                  have hand := (Bool.and_eq_true _ _).mp hg
                  have hg2 := hand.2
                  simp only [Bool.not_eq_true'] at hg2
                  simpa using hg2
                rw [List.pairwise_append]
                refine ⟨h, by simp, ?_⟩
                intro x hx b hb
                rw [List.mem_singleton] at hb
                subst hb
                intro _ heq
                exact hnot (List.mem_map.mpr ⟨x, hx, heq⟩)
            · exact h
    · exact h

theorem pulseFold_pairwise (lines : List String) :
    ∀ st : List AudioDevice × Option String,
      List.Pairwise (fun x y => y.dtype = "pulse" → x.path ≠ y.path) st.1 →
      List.Pairwise (fun x y => y.dtype = "pulse" → x.path ≠ y.path)
        (lines.foldl pulseStep st).1 := by
  induction lines with
  | nil => intro st h; exact h
  | cons l rest ih =>
      intro st h
      obtain ⟨d, c⟩ := st
      exact ih _ (pulseStep_pairwise d c l h)

theorem ensure_default_spec (d2 : List AudioDevice)
    (h : List.Pairwise (fun x y => y.dtype = "pulse" → x.path ≠ y.path) d2) :
    (∃ d ∈ (if d2.any (fun d => d.path == "default") then d2
            else d2 ++ [{ id := d2.length, path := "default",
                          name := "System Default", dtype := "default" }]),
      d.path = "default") ∧
    (if d2.any (fun d => d.path == "default") then d2
     else d2 ++ [{ id := d2.length, path := "default",
                   name := "System Default", dtype := "default" }]) ≠ [] ∧
    List.Pairwise (fun x y => y.dtype = "pulse" → x.path ≠ y.path)
      (if d2.any (fun d => d.path == "default") then d2
       else d2 ++ [{ id := d2.length, path := "default",
                     name := "System Default", dtype := "default" }]) := by
  by_cases hany : d2.any (fun d => d.path == "default") = true
  · rw [if_pos hany]
    obtain ⟨d, hd, he⟩ := List.any_eq_true.mp hany
    exact ⟨⟨d, hd, by simpa using he⟩, List.ne_nil_of_mem hd, h⟩
  · rw [if_neg hany]
    refine ⟨⟨_, List.mem_append_right _ (List.mem_singleton.mpr rfl), rfl⟩,
      by simp, ?_⟩
    rw [List.pairwise_append]
    refine ⟨h, by simp, ?_⟩
    intro x _ b hb
    rw [List.mem_singleton] at hb
    subst hb
    intro hc
    exact absurd hc (by decide : ¬("default" : String) = "pulse")

/-- C9: detect_audio_devices is total for absent listing tools (a missing
arecord or pactl simply skips that parse), always returns a list holding
an entry whose path is default — so the result is never empty — and every
pulse entry's path differs from the path of every entry listed before
it (the dedup against already-listed backend identifiers). -/
theorem C9_detect_audio_devices_robust (a p : Option (Int × List String)) :
    (∃ d ∈ detect_audio_devices a p, d.path = "default") ∧
    detect_audio_devices a p ≠ [] ∧
    List.Pairwise (fun x y => y.dtype = "pulse" → x.path ≠ y.path)
      (detect_audio_devices a p) := by
  obtain (_ | ⟨rc, lines⟩) := a <;> obtain (_ | ⟨rc2, lines2⟩) := p
  · simp only [detect_audio_devices]
    exact ensure_default_spec [] List.Pairwise.nil
  · simp only [detect_audio_devices]
    refine ensure_default_spec _ ?_
    split
    · exact pulseFold_pairwise lines2 ([], none) List.Pairwise.nil
    · exact List.Pairwise.nil
  · simp only [detect_audio_devices]
    refine ensure_default_spec _ ?_
    split
    · exact alsaFold_pairwise lines [] List.Pairwise.nil
    · exact List.Pairwise.nil
  · simp only [detect_audio_devices]
    have hd1 : List.Pairwise (fun x y => y.dtype = "pulse" → x.path ≠ y.path)
        (if rc = 0 then lines.foldl alsaStep [] else []) := by
      split
      · exact alsaFold_pairwise lines [] List.Pairwise.nil
      · exact List.Pairwise.nil
    refine ensure_default_spec _ ?_
    split
    · exact pulseFold_pairwise lines2 _ hd1
    · exact hd1

theorem set_bulk_loop_spec (req : List (String × PyVal)) :
    ∀ (ta : List (String × ℚ)) (inv : List String),
      (∀ kv ∈ req, kv.1 ∈ CAMERA_PROPS → pyFloat kv.2 ≠ FloatRes.typeError) →
      ∃ ta2 inv2, set_bulk_loop req (ta, inv) = Except.ok (ta2, inv2) ∧
        ((ta.map Prod.fst).Nodup → (ta2.map Prod.fst).Nodup) ∧
        (∀ k, (∀ v, (k, v) ∈ req →
            ¬(k ∈ CAMERA_PROPS ∧ ∃ q, pyFloat v = FloatRes.ok q)) →
          dlookup ta2 k = dlookup ta k) ∧
        (∀ k v q, (req.map Prod.fst).Nodup → (k, v) ∈ req →
          k ∈ CAMERA_PROPS → pyFloat v = FloatRes.ok q →
          dlookup ta2 k = some q) ∧
        (∀ x ∈ inv, x ∈ inv2) ∧
        (∀ kv ∈ req,
          (kv.1 ∉ CAMERA_PROPS ∨ pyFloat kv.2 = FloatRes.valueError) →
          kv.1 ∈ inv2) := by
  induction req with
  | nil =>
      intro ta inv _
      exact ⟨ta, inv, rfl, fun hn => hn, fun k _ => rfl,
             fun k v q _ hmem => absurd hmem (List.not_mem_nil _),
             fun x hx => hx,
             fun kv hkv => absurd hkv (List.not_mem_nil _)⟩
  | cons kv0 rest ih =>
      intro ta inv hreq
      obtain ⟨k, v⟩ := kv0
      have hrest : ∀ kv ∈ rest, kv.1 ∈ CAMERA_PROPS →
          pyFloat kv.2 ≠ FloatRes.typeError :=
        fun kv hkv => hreq kv (List.mem_cons_of_mem _ hkv)
      by_cases hk : k ∈ CAMERA_PROPS
      · cases hfl : pyFloat v with
        | ok q =>
            obtain ⟨ta2, inv2, heq, hnd, hpres, hpos, hinv, hbad⟩ :=
              ih (dset ta k q) inv hrest
            refine ⟨ta2, inv2, ?_, ?_, ?_, ?_, hinv, ?_⟩
            · simp only [set_bulk_loop]
              rw [if_pos hk, hfl]
              exact heq
            · intro hn
              exact hnd (nodup_keys_dset ta k q hn)
            · intro k2 hcond
              have hk2ne : k2 ≠ k := by
                intro he
                subst he
                exact hcond v (List.mem_cons_self _ _) ⟨hk, q, hfl⟩
              rw [hpres k2 (fun v2 hv2 => hcond v2 (List.mem_cons_of_mem _ hv2)),
                  dlookup_dset_of_ne ta k k2 q (Ne.symm hk2ne)]
            · intro k2 v2 q2 hnodup hmem hk2 hfl2
              rw [List.map_cons, List.nodup_cons] at hnodup
              rcases List.mem_cons.mp hmem with hhead | htail
              · have hke : k2 = k := congrArg Prod.fst hhead
                have hve : v2 = v := congrArg Prod.snd hhead
                subst hke
                subst hve
                have hq : q2 = q := by
                  rw [hfl] at hfl2
                  exact (FloatRes.ok.inj hfl2).symm
                subst hq
                have hcondk : ∀ v3, (k2, v3) ∈ rest →
                    ¬(k2 ∈ CAMERA_PROPS ∧ ∃ q3, pyFloat v3 = FloatRes.ok q3) :=
                  fun v3 hv3 =>
                    absurd (List.mem_map.mpr ⟨(k2, v3), hv3, rfl⟩) hnodup.1
                rw [hpres k2 hcondk, dlookup_dset_self]
              · exact hpos k2 v2 q2 hnodup.2 htail hk2 hfl2
            · intro kv2 hkv2 hbad2
              rcases List.mem_cons.mp hkv2 with hhead | htail
              · subst hhead
                rcases hbad2 with hb | hb
                · exact absurd hk hb
                · rw [hfl] at hb
                  exact FloatRes.noConfusion hb
              · exact hbad kv2 htail hbad2
        | valueError =>
            obtain ⟨ta2, inv2, heq, hnd, hpres, hpos, hinv, hbad⟩ :=
              ih ta (inv ++ [k]) hrest
            refine ⟨ta2, inv2, ?_, hnd, ?_, ?_, ?_, ?_⟩
            · simp only [set_bulk_loop]
              rw [if_pos hk, hfl]
              exact heq
            · intro k2 hcond
              exact hpres k2 (fun v2 hv2 => hcond v2 (List.mem_cons_of_mem _ hv2))
            · intro k2 v2 q2 hnodup hmem hk2 hfl2
              rw [List.map_cons, List.nodup_cons] at hnodup
              rcases List.mem_cons.mp hmem with hhead | htail
              · have hve : v2 = v := congrArg Prod.snd hhead
                subst hve
                rw [hfl] at hfl2
                exact FloatRes.noConfusion hfl2
              · exact hpos k2 v2 q2 hnodup.2 htail hk2 hfl2
            · intro x hx
              exact hinv x (List.mem_append_left _ hx)
            · intro kv2 hkv2 hbad2
              rcases List.mem_cons.mp hkv2 with hhead | htail
              · subst hhead
                exact hinv k (List.mem_append_right _ (List.mem_singleton.mpr rfl))
              · exact hbad kv2 htail hbad2
        | typeError =>
            exact absurd hfl (hreq (k, v) (List.mem_cons_self _ _) hk)
      · obtain ⟨ta2, inv2, heq, hnd, hpres, hpos, hinv, hbad⟩ :=
          ih ta (inv ++ [k]) hrest
        refine ⟨ta2, inv2, ?_, hnd, ?_, ?_, ?_, ?_⟩
        · simp only [set_bulk_loop]
          rw [if_neg hk]
          exact heq
        · intro k2 hcond
          exact hpres k2 (fun v2 hv2 => hcond v2 (List.mem_cons_of_mem _ hv2))
        · intro k2 v2 q2 hnodup hmem hk2 hfl2
          rw [List.map_cons, List.nodup_cons] at hnodup
          rcases List.mem_cons.mp hmem with hhead | htail
          · have hke : k2 = k := congrArg Prod.fst hhead
            subst hke
            exact absurd hk2 hk
          · exact hpos k2 v2 q2 hnodup.2 htail hk2 hfl2
        · intro x hx
          exact hinv x (List.mem_append_left _ hx)
        · intro kv2 hkv2 hbad2
          rcases List.mem_cons.mp hkv2 with hhead | htail
          · subst hhead
            exact hinv k (List.mem_append_right _ (List.mem_singleton.mpr rfl))
          · exact hbad kv2 htail hbad2

/-- C10 (amended): for any bulk request whose in-set values are numbers,
booleans, or strings (so float() raises at most ValueError), set_bulk
returns normally, writes every in-set float-convertible key into the
process-wide settings_state regardless of the camera argument and of the
hardware apply outcome (the success flag only reflects the apply
attempt), and reports in-set ValueError keys and out-of-set keys in
invalid, leaving settings_state unchanged for them; a value whose float()
raises TypeError (None, containers) instead propagates an uncaught
exception. -/
theorem C10_set_bulk_settings_write (env : Env) (req : List (String × PyVal))
    (st : List (String × ℚ)) (cam : Option CamObj)
    (hreq : ∀ kv ∈ req, kv.1 ∈ CAMERA_PROPS → pyFloat kv.2 ≠ FloatRes.typeError)
    (hnodup : (req.map Prod.fst).Nodup) :
    ∃ out st2 cam2, set_bulk env req st cam = Except.ok (out, st2, cam2) ∧
      (∀ k v q, (k, v) ∈ req → k ∈ CAMERA_PROPS → pyFloat v = FloatRes.ok q →
        dlookup st2 k = some q) ∧
      (∀ k, (∀ v, (k, v) ∈ req →
          ¬(k ∈ CAMERA_PROPS ∧ ∃ q, pyFloat v = FloatRes.ok q)) →
        dlookup st2 k = dlookup st k) ∧
      (∀ kv ∈ req,
        (kv.1 ∉ CAMERA_PROPS ∨ pyFloat kv.2 = FloatRes.valueError) →
        kv.1 ∈ out.invalid) ∧
      (cam = none → out.success = false) ∧
      (∀ out0 st0 cam0, set_bulk env req st none = Except.ok (out0, st0, cam0) →
        st0 = st2) := by
  obtain ⟨ta2, inv2, heq, hnd, hpres, hpos, _, hbad⟩ :=
    set_bulk_loop_spec req ([]) ([]) hreq
  have hnd2 : (ta2.map Prod.fst).Nodup := hnd (by simp)
  have hset0 : set_bulk env req st none =
      Except.ok ({ applied := ta2.map Prod.fst, invalid := inv2,
                   success := false }, dictUpdate st ta2, none) := by
    simp only [set_bulk]
    rw [heq]
  cases cam with
  | none =>
      refine ⟨_, _, _, hset0, ?_, ?_, ?_, fun _ => rfl, ?_⟩
      · intro k v q hmem hk hfl
        exact dlookup_dictUpdate_of_lookup ta2 st k q hnd2
          (hpos k v q hnodup hmem hk hfl)
      · intro k hcond
        have h1 : dlookup ta2 k = none := by
          rw [hpres k hcond]
          rfl
        exact dlookup_dictUpdate_notmem ta2 st k
          ((dlookup_eq_none_iff ta2 k).mp h1)
      · intro kv hkv hb
        exact hbad kv hkv hb
      · intro out0 st0 cam0 h0
        rw [hset0] at h0
        have h1 := Except.ok.inj h0
        exact (congrArg (fun x => x.2.1) h1).symm
  | some c =>
      have hset : set_bulk env req st (some c) =
          Except.ok ({ applied := ta2.map Prod.fst, invalid := inv2,
                       success := (Camera.update env c ta2).1 },
                     dictUpdate st ta2, some (Camera.update env c ta2).2) := by
        simp only [set_bulk]
        rw [heq]
      refine ⟨_, _, _, hset, ?_, ?_, ?_, fun hno => Option.noConfusion hno, ?_⟩
      · intro k v q hmem hk hfl
        exact dlookup_dictUpdate_of_lookup ta2 st k q hnd2
          (hpos k v q hnodup hmem hk hfl)
      · intro k hcond
        have h1 : dlookup ta2 k = none := by
          rw [hpres k hcond]
          rfl
        exact dlookup_dictUpdate_notmem ta2 st k
          ((dlookup_eq_none_iff ta2 k).mp h1)
      · intro kv hkv hb
        exact hbad kv hkv hb
      · intro out0 st0 cam0 h0
        rw [hset0] at h0
        have h1 := Except.ok.inj h0
        exact (congrArg (fun x => x.2.1) h1).symm

/-- C10 counterexample: a bulk request carrying value None for an in-set
key raises TypeError out of set_bulk (only ValueError is caught), so no
response listing the key in invalid is produced and settings_state is
never written, contrary to the claim that every unconvertible value is
reported in invalid. -/
theorem C10_counterexample :
    set_bulk envAllFail [("brightness", PyVal.noneV)] [] none =
      Except.error () := by rfl

theorem C10_set_bulk_settings_write_witness :
    ∃ out st2 cam2,
      set_bulk envAllFail
        [("brightness", PyVal.num 5), ("bogus", PyVal.num 1),
         ("contrast", PyVal.str none)] [("contrast", 2)] none =
        Except.ok (out, st2, cam2) ∧
      dlookup st2 ("brightness") = some 5 ∧
      dlookup st2 ("contrast") = some 2 ∧
      ("bogus") ∈ out.invalid ∧ ("contrast") ∈ out.invalid ∧
      out.success = false := by
  obtain ⟨out, st2, cam2, hset, hpos, hpres, hbad, hsucc, _⟩ :=
    C10_set_bulk_settings_write envAllFail
      [("brightness", PyVal.num 5), ("bogus", PyVal.num 1),
       ("contrast", PyVal.str none)] [("contrast", 2)] none
      (by intro kv hkv
          fin_cases hkv <;> decide)
      (by decide)
  have hcond : ∀ v, (("contrast"), v) ∈
      [("brightness", PyVal.num 5), ("bogus", PyVal.num 1),
       ("contrast", PyVal.str none)] →
      ¬(("contrast") ∈ CAMERA_PROPS ∧ ∃ q, pyFloat v = FloatRes.ok q) := by
    intro v hv
    rcases List.mem_cons.mp hv with h | hv2
    · exact absurd (congrArg Prod.fst h)
        (by decide : ¬("contrast" : String) = "brightness")
    · rcases List.mem_cons.mp hv2 with h | hv3
      · exact absurd (congrArg Prod.fst h)
          (by decide : ¬("contrast" : String) = "bogus")
      · rcases List.mem_cons.mp hv3 with h | hv4
        · have hve : v = PyVal.str none := congrArg Prod.snd h
          subst hve
          rintro ⟨_, q, hq⟩
          simp [pyFloat] at hq
        · exact absurd hv4 (List.not_mem_nil _)
  refine ⟨out, st2, cam2, hset, ?_, ?_, ?_, ?_, hsucc rfl⟩
  · exact hpos ("brightness") (PyVal.num 5) 5 (by decide) (by decide) (by decide)
  · rw [hpres ("contrast") hcond]
    rfl
  · exact hbad ("bogus", PyVal.num 1) (by decide) (Or.inl (by decide))
  · exact hbad ("contrast", PyVal.str none) (by decide) (Or.inr (by decide))
